import Mathlib

set_option autoImplicit false

/-!
Verification development for a small-satellite digital-twin simulator.

The Lean definitions below are a shallow embedding of the Python sources:

* SIM/apps/spacecraft/cdh.py        (CCSDS telemetry framing, sequence counter)
* SIM/simulator_runtime.py          (CCSDSPacket.from_bytes / to_bytes codec)
* SIM/apps/universe/orbit.py        (OrbitPropagator: Kepler solver, propagate)
* SIM/apps/universe/bodies.py       (Earth / Sun position models)
* SIM/apps/spacecraft/adcs.py       (ADCS attitude state machine and commands)
* SIM/apps/spacecraft/obc.py, power.py, comms.py, payload.py, datastore.py
                                    (per-subsystem command handlers)

Machine floats are modelled as real numbers; byte strings as lists of
naturals below 256; the datetime values that the code subtracts are
modelled as real-valued seconds on a common axis.  Python float division
by zero (which would produce inf/nan) is modelled by Lean total division.
-/

/-! ## Byte-level helpers shared by the packet codec and command handlers -/

/-- Big-endian 16-bit read: int.from_bytes(data[i:i+2], byteorder='big').
Out-of-range reads are modelled as zero bytes. -/
def word16At (d : List ℕ) (i : ℕ) : ℕ := d.getD i 0 * 256 + d.getD (i+1) 0

/-- Big-endian encoding of a 16-bit word: w.to_bytes(2, byteorder='big').
The Python call raises for w ≥ 2^16; all encoded words here are masked
below 2^16, where the two expressions agree. -/
def bytes2BE (w : ℕ) : List ℕ := [w / 256, w % 256]

/-! ## CCSDSPacket codec — SIM/simulator_runtime.py, class CCSDSPacket -/

/-- CCSDS Space Packet fields, as held by class CCSDSPacket. -/
structure CCSDSPacket where
  version : ℕ
  packet_type : ℕ
  sec_header_flag : ℕ
  apid : ℕ
  sequence_flags : ℕ
  sequence_count : ℕ
  packet_length : ℕ
  payload : List ℕ

/-- First header word built by CCSDSPacket.to_bytes:
((version & 0x7) << 13) | ((packet_type & 0x1) << 12) |
((sec_header_flag & 0x1) << 11) | (apid & 0x7FF). -/
def CCSDSPacket.primaryWord (p : CCSDSPacket) : ℕ :=
  ((p.version &&& 0x7) <<< 13) |||
  ((p.packet_type &&& 0x1) <<< 12) |||
  ((p.sec_header_flag &&& 0x1) <<< 11) |||
  (p.apid &&& 0x7FF)

/-- Second header word built by CCSDSPacket.to_bytes:
((sequence_flags & 0x3) << 14) | (sequence_count & 0x3FFF). -/
def CCSDSPacket.sequenceWord (p : CCSDSPacket) : ℕ :=
  ((p.sequence_flags &&& 0x3) <<< 14) ||| (p.sequence_count &&& 0x3FFF)

/-- CCSDSPacket.to_bytes: primary word, sequence word, payload length
(each as 2 big-endian bytes), then the payload. -/
def CCSDSPacket.to_bytes (p : CCSDSPacket) : List ℕ :=
  bytes2BE p.primaryWord ++ bytes2BE p.sequenceWord ++
    bytes2BE p.payload.length ++ p.payload

/-- CCSDSPacket.from_bytes: parse the six header bytes, keep the rest as
payload. -/
def CCSDSPacket.from_bytes (data : List ℕ) : CCSDSPacket :=
  let primary := word16At data 0
  let sequence := word16At data 2
  { version := (primary >>> 13) &&& 0x7
    packet_type := (primary >>> 12) &&& 0x1
    sec_header_flag := (primary >>> 11) &&& 0x1
    apid := primary &&& 0x7FF
    sequence_flags := (sequence >>> 14) &&& 0x3
    sequence_count := sequence &&& 0x3FFF
    packet_length := word16At data 4
    payload := data.drop 6 }

/-! ## CDHModule telemetry framing — SIM/apps/spacecraft/cdh.py -/

/-- Mutable CDH state: the packet sequence counter, initialised to 0 and
incremented (without bound) after every packet. -/
structure CDHModule where
  sequence_count : ℕ

/-- The 14-bit sequence-count field emitted in a packet built from this
state: self.sequence_count & 0x3FFF. -/
def CDHModule.emittedSeqCount (m : CDHModule) : ℕ := m.sequence_count &&& 0x3FFF

/-- First header word of create_tm_packet, with version=0, packet_type=0,
sec_hdr_flag=0, apid=100 hardcoded:
(version << 13) | (packet_type << 12) | (sec_hdr_flag << 11) | apid. -/
def CDHModule.first_word : ℕ := (0 <<< 13) ||| (0 <<< 12) ||| (0 <<< 11) ||| 100

/-- Second header word of create_tm_packet:
(sequence_flags << 14) | packet_sequence_count, sequence_flags=3. -/
def CDHModule.second_word (m : CDHModule) : ℕ :=
  (3 <<< 14) ||| m.emittedSeqCount

/-- create_tm_packet, reduced to the header fields the claims are about:
returns the emitted header words and the updated module state
(self.sequence_count += 1 happens after the packet is built). -/
def CDHModule.create_tm_packet (m : CDHModule) : (ℕ × ℕ) × CDHModule :=
  ((CDHModule.first_word, m.second_word), { sequence_count := m.sequence_count + 1 })

/-- The CDH state after n consecutive create_tm_packet calls starting from
the freshly constructed module (sequence_count = 0). -/
def cdhAfter : ℕ → CDHModule
  | 0 => { sequence_count := 0 }
  | n + 1 => ((cdhAfter n).create_tm_packet).2

/-! ## Arithmetic helpers for the bit-packed header fields -/

/-- A left-shifted value ors with a small addend as plain addition. -/
theorem mulPow_lor_eq_add (x : ℕ) :
    ∀ (n : ℕ) (y : ℕ), y < 2^n → (x * 2^n) ||| y = x * 2^n + y := by
  intro n
  induction n with
  | zero =>
    intro y hy
    have : y = 0 := by omega
    subst this
    simp
  | succ n ih =>
    intro y hy
    have hb : y % 2 = 0 ∨ y % 2 = 1 := by omega
    have h1 : x * 2^(n+1) = Nat.bit false (x * 2^n) := by
      simp [Nat.bit_val]
      ring
    have h2 : y = Nat.bit (decide (y % 2 = 1)) (y / 2) := by
      rcases hb with h | h <;> simp [Nat.bit_val, h] <;> omega
    have hy2 : y / 2 < 2^n := by
      have : 2^(n+1) = 2 * 2^n := by ring
      omega
    rw [h1, h2, Nat.lor_bit]
    rw [ih (y/2) hy2]
    rcases hb with h | h <;> simp [Nat.bit_val, h] <;> ring_nf <;> omega

theorem and_mask_three : ∀ x : ℕ, x &&& 3 = x % 4 := by
  intro x
  have h := Nat.and_pow_two_sub_one_eq_mod x 2
  norm_num at h
  exact h

theorem and_mask_seven : ∀ x : ℕ, x &&& 7 = x % 8 := by
  intro x
  have h := Nat.and_pow_two_sub_one_eq_mod x 3
  norm_num at h
  exact h

theorem and_mask_one : ∀ x : ℕ, x &&& 1 = x % 2 := by
  intro x
  simp [Nat.and_one_is_mod]

theorem and_mask_apid : ∀ x : ℕ, x &&& 2047 = x % 2048 := by
  intro x
  have h := Nat.and_pow_two_sub_one_eq_mod x 11
  norm_num at h
  exact h

theorem and_mask_seq : ∀ x : ℕ, x &&& 16383 = x % 16384 := by
  intro x
  have h := Nat.and_pow_two_sub_one_eq_mod x 14
  norm_num at h
  exact h

/-- The packed primary header word, as plain arithmetic, for in-range
fields. -/
theorem primaryWord_eq (p : CCSDSPacket) (hv : p.version < 8)
    (ht : p.packet_type < 2) (hs : p.sec_header_flag < 2) (ha : p.apid < 2048) :
    p.primaryWord = p.version * 8192 + p.packet_type * 4096 +
      p.sec_header_flag * 2048 + p.apid := by
  unfold CCSDSPacket.primaryWord
  have hv' : p.version &&& 7 = p.version := by
    rw [and_mask_seven]
    omega
  have ht' : p.packet_type &&& 1 = p.packet_type := by
    rw [and_mask_one]
    omega
  have hs' : p.sec_header_flag &&& 1 = p.sec_header_flag := by
    rw [and_mask_one]
    omega
  have ha' : p.apid &&& 2047 = p.apid := by
    rw [and_mask_apid]
    omega
  rw [show (0x7 : ℕ) = 7 from rfl, show (0x1 : ℕ) = 1 from rfl,
    show (0x7FF : ℕ) = 2047 from rfl, hv', ht', hs', ha']
  have h1 : (p.sec_header_flag <<< 11) ||| p.apid =
      p.sec_header_flag * 2048 + p.apid := by
    have := mulPow_lor_eq_add p.sec_header_flag 11 p.apid (by norm_num; omega)
    simpa [Nat.shiftLeft_eq] using this
  have h2 : (p.packet_type <<< 12) ||| ((p.sec_header_flag <<< 11) ||| p.apid) =
      p.packet_type * 4096 + (p.sec_header_flag * 2048 + p.apid) := by
    rw [h1]
    have := mulPow_lor_eq_add p.packet_type 12 (p.sec_header_flag * 2048 + p.apid)
      (by norm_num; omega)
    simpa [Nat.shiftLeft_eq] using this
  rw [Nat.lor_assoc, Nat.lor_assoc, h2]
  have h3 := mulPow_lor_eq_add p.version 13
    (p.packet_type * 4096 + (p.sec_header_flag * 2048 + p.apid)) (by norm_num; omega)
  rw [Nat.shiftLeft_eq, h3]
  ring

/-- The packed sequence word, as plain arithmetic, for in-range fields. -/
theorem sequenceWord_eq (p : CCSDSPacket) (hf : p.sequence_flags < 4)
    (hc : p.sequence_count < 16384) :
    p.sequenceWord = p.sequence_flags * 16384 + p.sequence_count := by
  unfold CCSDSPacket.sequenceWord
  have hf' : p.sequence_flags &&& 3 = p.sequence_flags := by
    rw [and_mask_three]
    omega
  have hc' : p.sequence_count &&& 16383 = p.sequence_count := by
    rw [and_mask_seq]
    omega
  rw [show (0x3 : ℕ) = 3 from rfl, show (0x3FFF : ℕ) = 16383 from rfl, hf', hc']
  have := mulPow_lor_eq_add p.sequence_flags 14 p.sequence_count (by norm_num; omega)
  simpa [Nat.shiftLeft_eq] using this

/-- The concrete header of Scenario C: version=0, type=0, secHdrFlag=1,
APID=100, seqFlags=3, seqCount=5. -/
def scenarioCPacket : CCSDSPacket :=
  { version := 0, packet_type := 0, sec_header_flag := 1, apid := 100
    sequence_flags := 3, sequence_count := 5, packet_length := 0, payload := [] }

/-- C6 counterexample: the claimed encoding first_word=0x0464 (with
second_word=0xC005) is false for the Scenario C field values; the code
puts the secondary-header flag at bit 11, giving 0x0864. -/
theorem scenarioC_first_word_not_0x0464 :
    ¬ (scenarioCPacket.primaryWord = 0x0464 ∧
       scenarioCPacket.sequenceWord = 0xC005) := by
  intro h
  have h1 : scenarioCPacket.primaryWord = 0x0864 := by decide
  rw [h1] at h
  exact absurd h.1 (by decide)

/-- C6 (amended): the Scenario C field values version=0, type=0,
secHdrFlag=1, APID=100, seqFlags=3, seqCount=5 encode to
first_word=0x0864 and second_word=0xC005. -/
theorem scenarioC_header_words :
    scenarioCPacket.primaryWord = 0x0864 ∧
    scenarioCPacket.sequenceWord = 0xC005 := by
  constructor <;> decide

theorem cdhAfter_sequence_count (n : ℕ) : (cdhAfter n).sequence_count = n := by
  induction n with
  | zero => rfl
  | succ n ih =>
    simp [cdhAfter, CDHModule.create_tm_packet, ih]

/-- C7: the 14-bit sequence-count field emitted by create_tm_packet is
always in [0, 16383]; after n packets it equals n mod 16384, it advances
by one mod 16384 with every packet, it returns to the same value exactly
after 16384 further packets, and the underlying counter keeps the full
packet count for the process lifetime (it is never reset). -/
theorem tm_sequence_count_cycles (n : ℕ) :
    (cdhAfter n).emittedSeqCount = n % 16384 ∧
    (cdhAfter n).emittedSeqCount < 16384 ∧
    (cdhAfter (n+1)).emittedSeqCount = ((cdhAfter n).emittedSeqCount + 1) % 16384 ∧
    (cdhAfter (n + 16384)).emittedSeqCount = (cdhAfter n).emittedSeqCount ∧
    (cdhAfter n).sequence_count = n := by
  have h : ∀ m : ℕ, (cdhAfter m).emittedSeqCount = m % 16384 := by
    intro m
    unfold CDHModule.emittedSeqCount
    rw [cdhAfter_sequence_count]
    have := and_mask_seq m
    norm_num at this ⊢
    omega
  refine ⟨h n, ?_, ?_, ?_, cdhAfter_sequence_count n⟩
  · rw [h n]
    omega
  · rw [h n, h (n+1)]
    omega
  · rw [h n, h (n + 16384)]
    omega

/-- C10: encoding a packet with in-range header fields and decoding the
result recovers version, type, APID and sequence count exactly. -/
theorem ccsds_header_roundtrip (p : CCSDSPacket)
    (hv : p.version < 8) (ht : p.packet_type < 2) (hs : p.sec_header_flag < 2)
    (ha : p.apid < 2048) (hf : p.sequence_flags < 4) (hc : p.sequence_count < 16384) :
    (CCSDSPacket.from_bytes p.to_bytes).version = p.version ∧
    (CCSDSPacket.from_bytes p.to_bytes).packet_type = p.packet_type ∧
    (CCSDSPacket.from_bytes p.to_bytes).apid = p.apid ∧
    (CCSDSPacket.from_bytes p.to_bytes).sequence_count = p.sequence_count := by
  have hb : p.to_bytes = p.primaryWord / 256 :: p.primaryWord % 256 ::
      p.sequenceWord / 256 :: p.sequenceWord % 256 ::
      p.payload.length / 256 :: p.payload.length % 256 :: p.payload := by
    simp [CCSDSPacket.to_bytes, bytes2BE]
  have hw1 : word16At p.to_bytes 0 = p.primaryWord := by
    rw [hb]
    simp [word16At]
    omega
  have hw2 : word16At p.to_bytes 2 = p.sequenceWord := by
    rw [hb]
    simp [word16At]
    omega
  have hp := primaryWord_eq p hv ht hs ha
  have hsq := sequenceWord_eq p hf hc
  simp only [CCSDSPacket.from_bytes, hw1, hw2]
  rw [Nat.shiftRight_eq_div_pow, Nat.shiftRight_eq_div_pow]
  rw [and_mask_seven, and_mask_one, and_mask_apid, and_mask_seq, hp, hsq]
  norm_num
  omega

/-- C10 witness: the round-trip theorem applied to the concrete Scenario C
header. -/
theorem ccsds_header_roundtrip_witness :
    (CCSDSPacket.from_bytes scenarioCPacket.to_bytes).version = scenarioCPacket.version ∧
    (CCSDSPacket.from_bytes scenarioCPacket.to_bytes).packet_type = scenarioCPacket.packet_type ∧
    (CCSDSPacket.from_bytes scenarioCPacket.to_bytes).apid = scenarioCPacket.apid ∧
    (CCSDSPacket.from_bytes scenarioCPacket.to_bytes).sequence_count = scenarioCPacket.sequence_count :=
  ccsds_header_roundtrip scenarioCPacket (by norm_num [scenarioCPacket])
    (by norm_num [scenarioCPacket]) (by norm_num [scenarioCPacket])
    (by norm_num [scenarioCPacket]) (by norm_num [scenarioCPacket])
    (by norm_num [scenarioCPacket])

/-! ## Real-arithmetic embedding of the universe model -/

open scoped Classical

noncomputable section

open Real

/-- Python float modulus x % y (used for angles): x - y*floor(x/y). -/
def fmod (x y : ℝ) : ℝ := x - y * ↑⌊x / y⌋

/-- numpy arctan2(y, x), range (-π, π]. -/
def arctan2 (y x : ℝ) : ℝ := Complex.arg ⟨x, y⟩

/-- numpy radians. -/
def radiansOf (d : ℝ) : ℝ := d * π / 180

/-- numpy degrees. -/
def degreesOf (r : ℝ) : ℝ := r * 180 / π

/-- A 3-vector (np.array of length 3). -/
structure Vec3 where
  x : ℝ
  y : ℝ
  z : ℝ

def Vec3.add (a b : Vec3) : Vec3 := ⟨a.x + b.x, a.y + b.y, a.z + b.z⟩

def Vec3.smul (c : ℝ) (v : Vec3) : Vec3 := ⟨c * v.x, c * v.y, c * v.z⟩

def Vec3.divScalar (v : Vec3) (c : ℝ) : Vec3 := ⟨v.x / c, v.y / c, v.z / c⟩

def Vec3.dot (a b : Vec3) : ℝ := a.x * b.x + a.y * b.y + a.z * b.z

/-- np.linalg.norm. -/
def Vec3.normV (v : Vec3) : ℝ := Real.sqrt (v.dot v)

def Vec3.cross (a b : Vec3) : Vec3 :=
  ⟨a.y * b.z - a.z * b.y, a.z * b.x - a.x * b.z, a.x * b.y - a.y * b.x⟩

def Vec3.neg (v : Vec3) : Vec3 := ⟨-v.x, -v.y, -v.z⟩

/-! ## Celestial bodies — SIM/apps/universe/bodies.py.
Times are real-valued seconds since the J2000 epoch
(datetime(2000, 1, 1, 12, 0, 0)); datetime subtraction in the code becomes
real subtraction. -/

def gravitationalConstant : ℝ := 6.6743e-11

def earthMass : ℝ := 5.972e24

def earthRadius : ℝ := 6371.0e3

/-- Earth.gravitational_parameter(): G * mass. -/
def earthMu : ℝ := gravitationalConstant * earthMass

def earthJ2 : ℝ := 1.08263e-3

/-- Sun.get_position_at_time: circular solar position model in ECI,
angle from seconds since J2000. -/
def sunPositionAtTime (t : ℝ) : Vec3 :=
  let year : ℝ := 365.25 * 24 * 3600
  let au : ℝ := 149597870.7e3
  let theta := fmod (2 * π * t / year) (2 * π)
  ⟨au * Real.cos theta, au * Real.sin theta, 0⟩

/-! ## OrbitPropagator — SIM/apps/universe/orbit.py -/

/-- The orbital elements dictionary from ORBIT_CONFIG (km / degrees). -/
structure OrbitElementsConfig where
  semi_major_axis : ℝ
  eccentricity : ℝ
  inclination : ℝ
  raan : ℝ
  arg_perigee : ℝ
  true_anomaly : ℝ

/-- The configured spacecraft elements of config.py. -/
def configElements : OrbitElementsConfig :=
  { semi_major_axis := 6878.0, eccentricity := 0.0001, inclination := 97.4
    raan := 22.5, arg_perigee := 0.0, true_anomaly := 0.0 }

/-- The immutable fields of OrbitPropagator set in __init__ (SI units,
radians), plus the derived period and the mission start time. -/
structure OrbitElements where
  a : ℝ
  e : ℝ
  i : ℝ
  raan : ℝ
  arg_p : ℝ
  period : ℝ
  mission_start : ℝ

/-- Orbit state dictionary returned by _calculate_state. -/
structure OrbitState where
  position : Vec3
  velocity : Vec3
  lat : ℝ
  lon : ℝ
  alt : ℝ
  eclipse : Bool
  time : ℝ

/-- Rotation about the z axis (the R_w and R_W matrices applied to a
vector). -/
def rotZ (ang : ℝ) (v : Vec3) : Vec3 :=
  ⟨Real.cos ang * v.x - Real.sin ang * v.y,
   Real.sin ang * v.x + Real.cos ang * v.y, v.z⟩

/-- Rotation about the x axis (the R_i matrix applied to a vector). -/
def rotX (ang : ℝ) (v : Vec3) : Vec3 :=
  ⟨v.x, Real.cos ang * v.y - Real.sin ang * v.z,
   Real.sin ang * v.y + Real.cos ang * v.z⟩

/-- _check_eclipse: cylindrical shadow model, angle between sun and
spacecraft direction beyond 90 degrees. -/
def check_eclipse (pos_eci sun_pos : Vec3) : Bool :=
  let sun_dir := sun_pos.divScalar sun_pos.normV
  let sc_dir := pos_eci.divScalar pos_eci.normV
  let angle := Real.arccos (sun_dir.dot sc_dir)
  if angle > π / 2 then true else false

/-- _apply_j2_perturbation: J2 acceleration at an ECI position (the dt
argument of the Python function is unused there and dropped here). -/
def apply_j2_perturbation (pos_eci : Vec3) : Vec3 :=
  let r := pos_eci.normV
  let j2_term := -1.5 * earthJ2 * earthMu * earthRadius^2 / r^4
  ⟨j2_term * pos_eci.x / r * (5 * pos_eci.z^2 / r^2 - 1),
   j2_term * pos_eci.y / r * (5 * pos_eci.z^2 / r^2 - 1),
   j2_term * pos_eci.z / r * (5 * pos_eci.z^2 / r^2 - 3)⟩

/-- The Kepler fixed-point iteration E ← M + e·sin(E), started at E = M,
after k steps. -/
def keplerIter (e M : ℝ) : ℕ → ℝ
  | 0 => M
  | k + 1 => M + e * Real.sin (keplerIter e M k)

/-- The eccentric anomaly used by _calculate_state: exactly 10 iterations,
no convergence check. -/
def solveKepler (e M : ℝ) : ℝ := keplerIter e M 10

/-- _calculate_state: orbital state at a given time from the immutable
elements. -/
def _calculate_state (el : OrbitElements) (time : ℝ) : OrbitState :=
  let dt := time - el.mission_start
  let n := 2 * π / el.period
  let M := fmod (n * dt) (2 * π)
  let E := solveKepler el.e M
  let nu := 2 * Real.arctan (Real.sqrt ((1 + el.e) / (1 - el.e)) * Real.tan (E / 2))
  let r := el.a * (1 - el.e * Real.cos E)
  let pos_orbital : Vec3 := ⟨r * Real.cos nu, r * Real.sin nu, 0⟩
  let pos_eci := rotZ el.raan (rotX el.i (rotZ el.arg_p pos_orbital))
  let p := el.a * (1 - el.e^2)
  let v_x := -(Real.sqrt (earthMu / p)) * Real.sin nu
  let v_y := Real.sqrt (earthMu / p) * (el.e + Real.cos nu)
  let vel_orbital : Vec3 := ⟨v_x, v_y, 0⟩
  let vel_eci := rotZ el.raan (rotX el.i (rotZ el.arg_p vel_orbital))
  let r_mag := pos_eci.normV
  let lat := Real.arcsin (pos_eci.z / r_mag)
  let lon := arctan2 pos_eci.y pos_eci.x
  let alt := r_mag - earthRadius
  let sun_pos := sunPositionAtTime time
  let in_eclipse := check_eclipse pos_eci sun_pos
  let j2_accel := apply_j2_perturbation pos_eci
  let pos_final := pos_eci.add (j2_accel.smul (0.5 * dt^2))
  { position := pos_final.divScalar 1000
    velocity := vel_eci.divScalar 1000
    lat := degreesOf lat
    lon := degreesOf lon
    alt := alt / 1000
    eclipse := in_eclipse
    time := time }

/-- OrbitPropagator: immutable elements plus the memoization fields
last_update_time and current_state. -/
structure OrbitPropagator where
  elems : OrbitElements
  last_update_time : ℝ
  current_state : OrbitState

/-- OrbitPropagator.__init__ from the configuration dictionaries: km to m,
degrees to radians, period from Kepler's third law, initial state at the
mission start time. -/
def mkOrbitPropagator (cfg : OrbitElementsConfig) (mission_start : ℝ) : OrbitPropagator :=
  let a := cfg.semi_major_axis * 1000
  let el : OrbitElements :=
    { a := a, e := cfg.eccentricity, i := radiansOf cfg.inclination
      raan := radiansOf cfg.raan, arg_p := radiansOf cfg.arg_perigee
      period := 2 * π * Real.sqrt (a^3 / earthMu), mission_start := mission_start }
  { elems := el, last_update_time := mission_start
    current_state := _calculate_state el mission_start }

/-- propagate: recompute only when the requested time differs from the
last update time, else return the cached state. -/
def OrbitPropagator.propagate (p : OrbitPropagator) (current_time : ℝ) :
    OrbitPropagator × OrbitState :=
  if current_time ≠ p.last_update_time then
    let s := _calculate_state p.elems current_time
    ({ p with last_update_time := current_time, current_state := s }, s)
  else
    (p, p.current_state)

/-- The propagator's memoization invariant: the cached state is the state
computed at the cached time. It holds at construction and is preserved by
propagate. -/
def OrbitPropagator.Wf (p : OrbitPropagator) : Prop :=
  p.current_state = _calculate_state p.elems p.last_update_time

/-- A sequence of propagate calls, keeping the updated propagator. -/
def runCalls (p : OrbitPropagator) (ts : List ℝ) : OrbitPropagator :=
  ts.foldl (fun q s => (q.propagate s).1) p

/-! ## C1: the Kepler solver -/

theorem abs_sin_sub_sin_le (x y : ℝ) : |Real.sin x - Real.sin y| ≤ |x - y| := by
  rw [Real.sin_sub_sin, abs_mul, abs_mul]
  have h1 : |Real.sin ((x - y) / 2)| ≤ |(x - y) / 2| := Real.abs_sin_le_abs
  have h2 : |Real.cos ((x + y) / 2)| ≤ 1 := Real.abs_cos_le_one _
  have h3 : |(2:ℝ)| = 2 := by norm_num
  have h4 : |(x - y) / 2| = |x - y| / 2 := by
    rw [abs_div]
    norm_num
  calc |(2:ℝ)| * |Real.sin ((x - y) / 2)| * |Real.cos ((x + y) / 2)|
      ≤ |(2:ℝ)| * |(x - y) / 2| * 1 :=
        mul_le_mul (mul_le_mul le_rfl h1 (abs_nonneg _) (abs_nonneg _)) h2
          (abs_nonneg _) (by positivity)
    _ = |x - y| := by
        rw [h3, h4]
        ring

/-- Consecutive Kepler iterates differ by at most e^(k+1): the iteration
is a contraction with factor e. -/
theorem keplerIter_diff_le (e M : ℝ) (he : 0 ≤ e) :
    ∀ k, |keplerIter e M (k+1) - keplerIter e M k| ≤ e^(k+1) := by
  intro k
  induction k with
  | zero =>
    show |M + e * Real.sin (keplerIter e M 0) - keplerIter e M 0| ≤ e^1
    show |M + e * Real.sin M - M| ≤ e^1
    have h : M + e * Real.sin M - M = e * Real.sin M := by ring
    rw [h, abs_mul, abs_of_nonneg he, pow_one]
    have hs : |Real.sin M| ≤ 1 := abs_le.mpr ⟨Real.neg_one_le_sin M, Real.sin_le_one M⟩
    nlinarith [abs_nonneg (Real.sin M)]
  | succ k ih =>
    show |M + e * Real.sin (keplerIter e M (k+1)) -
        (M + e * Real.sin (keplerIter e M k))| ≤ e^(k+2)
    have h : M + e * Real.sin (keplerIter e M (k+1)) -
        (M + e * Real.sin (keplerIter e M k)) =
        e * (Real.sin (keplerIter e M (k+1)) - Real.sin (keplerIter e M k)) := by
      ring
    rw [h, abs_mul, abs_of_nonneg he]
    have h2 := abs_sin_sub_sin_le (keplerIter e M (k+1)) (keplerIter e M k)
    calc e * |Real.sin (keplerIter e M (k+1)) - Real.sin (keplerIter e M k)|
        ≤ e * |keplerIter e M (k+1) - keplerIter e M k| :=
          mul_le_mul_of_nonneg_left h2 he
      _ ≤ e * e^(k+1) := mul_le_mul_of_nonneg_left ih he
      _ = e^(k+2) := by ring

/-- The residual of the 10-iteration solver in Kepler's equation is at
most e^11. -/
theorem solveKepler_residual_le (e M : ℝ) (he : 0 ≤ e) :
    |solveKepler e M - (M + e * Real.sin (solveKepler e M))| ≤ e^11 := by
  have hdiff := keplerIter_diff_le e M he 9
  have hs := abs_sin_sub_sin_le (keplerIter e M 9) (keplerIter e M 10)
  have hrw : solveKepler e M - (M + e * Real.sin (solveKepler e M)) =
      e * (Real.sin (keplerIter e M 9) - Real.sin (keplerIter e M 10)) := by
    show keplerIter e M 10 - (M + e * Real.sin (keplerIter e M 10)) = _
    show M + e * Real.sin (keplerIter e M 9) - (M + e * Real.sin (keplerIter e M 10)) = _
    ring
  rw [hrw, abs_mul, abs_of_nonneg he]
  have h1 : |keplerIter e M 9 - keplerIter e M 10| = |keplerIter e M 10 - keplerIter e M 9| :=
    abs_sub_comm _ _
  calc e * |Real.sin (keplerIter e M 9) - Real.sin (keplerIter e M 10)|
      ≤ e * |keplerIter e M 9 - keplerIter e M 10| := mul_le_mul_of_nonneg_left hs he
    _ ≤ e * e^10 := by
        rw [h1]
        exact mul_le_mul_of_nonneg_left hdiff he
    _ = e^11 := by ring

/-- C1: for every eccentricity and elapsed time, the eccentric anomaly of
_calculate_state is exactly the 10-fold fixed-point iterate of
E ← M + e·sin(E) started at E = M with M = (n·dt) mod 2π; and for
e = 0.0001 the result satisfies Kepler's equation to within 1e-6 for
every mean anomaly in [0, 2π). -/
theorem kepler_solver_ten_iterations (e n dt : ℝ) :
    solveKepler e (fmod (n * dt) (2 * π)) =
      (fun E => fmod (n * dt) (2 * π) + e * Real.sin E)^[10] (fmod (n * dt) (2 * π)) ∧
    ∀ M : ℝ, 0 ≤ M → M < 2 * π →
      |solveKepler 0.0001 M - (M + 0.0001 * Real.sin (solveKepler 0.0001 M))| <
        1 / 1000000 := by
  constructor
  · have h : ∀ (M : ℝ) (k : ℕ), keplerIter e M k = (fun E => M + e * Real.sin E)^[k] M := by
      intro M k
      induction k with
      | zero => rfl
      | succ k ih =>
        rw [Function.iterate_succ_apply', ← ih]
        rfl
    exact h _ 10
  · intro M h0 h2
    have hb := solveKepler_residual_le 0.0001 M (by norm_num)
    have hlt : (0.0001:ℝ)^11 < 1 / 1000000 := by norm_num
    linarith

/-- C1 witness: the theorem instantiated at M = 0 with e = 0.0001. -/
theorem kepler_solver_ten_iterations_witness :
    (0:ℝ) ≤ 0 ∧ (0:ℝ) < 2 * π ∧
    |solveKepler 0.0001 0 - (0 + 0.0001 * Real.sin (solveKepler 0.0001 0))| < 1 / 1000000 :=
  ⟨le_rfl, by positivity,
    (kepler_solver_ten_iterations 0.0001 0 0).2 0 le_rfl (by positivity)⟩

/-! ## C2: propagate is deterministic, idempotent and memoized -/

theorem propagate_result (p : OrbitPropagator) (h : p.Wf) (t : ℝ) :
    (p.propagate t).2 = _calculate_state p.elems t := by
  unfold OrbitPropagator.propagate
  split
  · rfl
  · next h' =>
    have ht : t = p.last_update_time := not_not.mp h'
    rw [h, ht]

theorem propagate_fst_elems (p : OrbitPropagator) (t : ℝ) :
    ((p.propagate t).1).elems = p.elems := by
  unfold OrbitPropagator.propagate
  split <;> rfl

theorem propagate_fst_wf (p : OrbitPropagator) (h : p.Wf) (t : ℝ) :
    ((p.propagate t).1).Wf := by
  unfold OrbitPropagator.propagate
  split
  · rfl
  · exact h

theorem propagate_fst_time (p : OrbitPropagator) (t : ℝ) :
    ((p.propagate t).1).last_update_time = t := by
  unfold OrbitPropagator.propagate
  split
  · rfl
  · next h' => exact (not_not.mp h').symm

theorem propagate_fst_cache (p : OrbitPropagator) (t : ℝ) :
    ((p.propagate t).1).current_state = (p.propagate t).2 := by
  unfold OrbitPropagator.propagate
  split <;> rfl

/-- Calling propagate at the cached time returns the cached state and
leaves the propagator untouched (the recomputation branch is not taken). -/
theorem propagate_at_cached (q : OrbitPropagator) (t : ℝ)
    (h : q.last_update_time = t) : q.propagate t = (q, q.current_state) := by
  unfold OrbitPropagator.propagate
  rw [if_neg]
  simp [h]

theorem runCalls_wf (p : OrbitPropagator) (h : p.Wf) (ts : List ℝ) :
    (runCalls p ts).Wf ∧ (runCalls p ts).elems = p.elems := by
  induction ts generalizing p with
  | nil => exact ⟨h, rfl⟩
  | cons a ts ih =>
    have hstep : runCalls p (a :: ts) = runCalls ((p.propagate a).1) ts := rfl
    rw [hstep]
    have h1 := propagate_fst_wf p h a
    have h2 := propagate_fst_elems p a
    refine ⟨(ih _ h1).1, ?_⟩
    rw [(ih _ h1).2, h2]

/-- C2: propagate is a pure function of the requested time — after any two
interleaving histories of other calls, calls at the same time return the
same state — and an immediately repeated call at an unchanged time returns
the cached state with the propagator unchanged (memoization). -/
theorem propagate_deterministic_memoized (p : OrbitPropagator) (h : p.Wf) :
    (∀ (ts₁ ts₂ : List ℝ) (t : ℝ),
      ((runCalls p ts₁).propagate t).2 = ((runCalls p ts₂).propagate t).2) ∧
    (∀ t : ℝ,
      ((p.propagate t).1).propagate t = ((p.propagate t).1, (p.propagate t).2)) := by
  constructor
  · intro ts₁ ts₂ t
    have h1 := runCalls_wf p h ts₁
    have h2 := runCalls_wf p h ts₂
    rw [propagate_result _ h1.1 t, propagate_result _ h2.1 t, h1.2, h2.2]
  · intro t
    have ht := propagate_fst_time p t
    have hc := propagate_fst_cache p t
    rw [propagate_at_cached _ t ht, hc]

/-- C2 witness: the theorem applied to the propagator built from the
configured elements, with two distinct call histories. -/
theorem propagate_deterministic_memoized_witness :
    ((runCalls (mkOrbitPropagator configElements 0) [1]).propagate 5).2 =
      ((runCalls (mkOrbitPropagator configElements 0) [2, 3]).propagate 5).2 ∧
    (((mkOrbitPropagator configElements 0).propagate 7).1).propagate 7 =
      (((mkOrbitPropagator configElements 0).propagate 7).1,
       ((mkOrbitPropagator configElements 0).propagate 7).2) :=
  ⟨(propagate_deterministic_memoized (mkOrbitPropagator configElements 0) rfl).1 [1] [2, 3] 5,
   (propagate_deterministic_memoized (mkOrbitPropagator configElements 0) rfl).2 7⟩

/-! ## ADCS — SIM/apps/spacecraft/adcs.py -/

/-- Attitude quaternion in [x, y, z, w] layout. -/
structure Quat where
  x : ℝ
  y : ℝ
  z : ℝ
  w : ℝ

def Quat.normSq (q : Quat) : ℝ := q.x^2 + q.y^2 + q.z^2 + q.w^2

/-- np.linalg.norm of the 4-vector. -/
def Quat.normQ (q : Quat) : ℝ := Real.sqrt q.normSq

def Quat.divScalar (q : Quat) (c : ℝ) : Quat := ⟨q.x / c, q.y / c, q.z / c, q.w / c⟩

/-- Decode 4 big-endian bytes as an IEEE-754 binary32 value
(struct.unpack with format '>f').  Finite values decode exactly;
exponent 255 encodes inf/NaN, which have no real counterpart and are
decoded here by the same normal-number formula. -/
def decodeF32 (b0 b1 b2 b3 : ℕ) : ℝ :=
  let bits := b0 * 2^24 + b1 * 2^16 + b2 * 2^8 + b3
  let sign : ℝ := if bits / 2^31 = 1 then -1 else 1
  let expo : ℕ := (bits / 2^23) % 2^8
  let frac : ℕ := bits % 2^23
  let mag : ℝ :=
    if expo = 0 then ((frac : ℝ) / 2^23) * (2:ℝ)^(-(126:ℤ))
    else (1 + (frac : ℝ) / 2^23) * (2:ℝ)^((expo : ℤ) - 127)
  sign * mag

/-- struct.unpack '>B' / 'B': exactly one byte, else struct.error (None). -/
def unpackU8 (d : List ℕ) : Option ℕ :=
  if d.length = 1 then some (d.getD 0 0) else none

/-- struct.unpack '>f': exactly four bytes, else struct.error (None). -/
def unpackF32 (d : List ℕ) : Option ℝ :=
  if d.length = 4 then
    some (decodeF32 (d.getD 0 0) (d.getD 1 0) (d.getD 2 0) (d.getD 3 0))
  else none

/-- struct.unpack '>I': exactly four bytes as a big-endian uint32. -/
def unpackU32 (d : List ℕ) : Option ℕ :=
  if d.length = 4 then
    some (d.getD 0 0 * 2^24 + d.getD 1 0 * 2^16 + d.getD 2 0 * 2^8 + d.getD 3 0)
  else none

/-- struct.unpack '>ffff': exactly sixteen bytes as four big-endian
float32 values. -/
def unpackQuat (d : List ℕ) : Option (ℝ × ℝ × ℝ × ℝ) :=
  if d.length = 16 then
    some (decodeF32 (d.getD 0 0) (d.getD 1 0) (d.getD 2 0) (d.getD 3 0),
          decodeF32 (d.getD 4 0) (d.getD 5 0) (d.getD 6 0) (d.getD 7 0),
          decodeF32 (d.getD 8 0) (d.getD 9 0) (d.getD 10 0) (d.getD 11 0),
          decodeF32 (d.getD 12 0) (d.getD 13 0) (d.getD 14 0) (d.getD 15 0))
  else none

/-- The mutable ADCS attributes touched by process_command and
_update_attitude, plus the pointing configuration read from
SPACECRAFT_CONFIG in __init__. -/
structure ADCSModule where
  state : ℕ
  temperature : ℝ
  heater_setpoint : ℝ
  heater_state : ℕ
  power_draw : ℝ
  mode : ℕ
  status : ℕ
  quaternion : Quat
  angular_velocity : Vec3
  position : Vec3
  eclipse : ℕ
  lock_quaternion : Option Quat
  pointing_start_time : Option ℝ
  pointing_accuracy : ℝ
  nominal_slew_rate : ℝ
  time_step : ℝ

/-- ADCSModule.process_command (command IDs 30–39).  A struct.error from a
wrong-length payload is caught and leaves the state unchanged; unknown IDs
only log a warning. -/
def ADCSModule.process_command (m : ADCSModule) (command_id : ℕ)
    (command_data : List ℕ) : ADCSModule :=
  match command_id with
  | 30 =>
    match unpackU8 command_data with
    | some s => { m with state := s }
    | none => m
  | 31 =>
    match unpackU8 command_data with
    | some h => { m with heater_state := h }
    | none => m
  | 32 =>
    match unpackF32 command_data with
    | some sp => { m with heater_setpoint := sp }
    | none => m
  | 33 =>
    match unpackU8 command_data with
    | some new_mode =>
      if new_mode > 4 then m
      else { m with mode := new_mode, status := 1, pointing_start_time := none }
    | none => m
  | 34 =>
    match unpackQuat command_data with
    | some (q0, q1, q2, q3) => { m with quaternion := ⟨q0, q1, q2, q3⟩ }
    | none => m
  | _ => m

/-- np.sign. -/
def signR (x : ℝ) : ℝ := if x > 0 then 1 else if x < 0 then -1 else 0

/-- np.copysign(a, b): |a| carrying the sign of b (b = +0 counts
positive). -/
def copysign (a b : ℝ) : ℝ := if b < 0 then -|a| else |a|

/-- _euler_to_quaternion: degrees in, ZYX sequence, [x,y,z,w] out,
normalized on output. -/
def _euler_to_quaternion (roll_deg pitch_deg yaw_deg : ℝ) : Quat :=
  let roll := radiansOf roll_deg
  let pitch := radiansOf pitch_deg
  let yaw := radiansOf yaw_deg
  let cy := Real.cos (yaw * 0.5)
  let sy := Real.sin (yaw * 0.5)
  let cp := Real.cos (pitch * 0.5)
  let sp := Real.sin (pitch * 0.5)
  let cr := Real.cos (roll * 0.5)
  let sr := Real.sin (roll * 0.5)
  let w := cr * cp * cy + sr * sp * sy
  let x := sr * cp * cy - cr * sp * sy
  let y := cr * sp * cy + sr * cp * sy
  let z := cr * cp * sy - sr * sp * cy
  let q : Quat := ⟨x, y, z, w⟩
  q.divScalar q.normQ

/-- _quaternion_to_euler: [x,y,z,w] in, (roll, pitch, yaw) in degrees out;
the input is normalized first and the pitch is clamped to ±90° when the
sine argument leaves [-1, 1]. -/
def _quaternion_to_euler (q0 : Quat) : ℝ × ℝ × ℝ :=
  let q := q0.divScalar q0.normQ
  let sinr_cosp := 2 * (q.w * q.x + q.y * q.z)
  let cosr_cosp := 1 - 2 * (q.x * q.x + q.y * q.y)
  let roll := arctan2 sinr_cosp cosr_cosp
  let sinp := 2 * (q.w * q.y - q.z * q.x)
  let pitch := if |sinp| ≥ 1 then copysign (π / 2) sinp else Real.arcsin sinp
  let siny_cosp := 2 * (q.w * q.z + q.x * q.y)
  let cosy_cosp := 1 - 2 * (q.y * q.y + q.z * q.z)
  let yaw := arctan2 siny_cosp cosy_cosp
  (degreesOf roll, degreesOf pitch, degreesOf yaw)

/-- 3x3 matrix stored as its three columns (np.column_stack of the body
axes). -/
structure Mat3 where
  c1 : Vec3
  c2 : Vec3
  c3 : Vec3

/-- _rotation_matrix_to_quaternion: four-case Shepperd method keyed on the
trace and the dominant diagonal entry, normalized output.  Entry R[i,j] is
row i of column j. -/
def _rotation_matrix_to_quaternion (R : Mat3) : Quat :=
  let trace := R.c1.x + R.c2.y + R.c3.z
  let q : Quat :=
    if trace > 0 then
      let S := Real.sqrt (trace + 1.0) * 2
      ⟨(R.c2.z - R.c3.y) / S, (R.c3.x - R.c1.z) / S, (R.c1.y - R.c2.x) / S, 0.25 * S⟩
    else if R.c1.x > R.c2.y ∧ R.c1.x > R.c3.z then
      let S := Real.sqrt (1.0 + R.c1.x - R.c2.y - R.c3.z) * 2
      ⟨0.25 * S, (R.c2.x + R.c1.y) / S, (R.c3.x + R.c1.z) / S, (R.c2.z - R.c3.y) / S⟩
    else if R.c2.y > R.c3.z then
      let S := Real.sqrt (1.0 + R.c2.y - R.c1.x - R.c3.z) * 2
      ⟨(R.c2.x + R.c1.y) / S, 0.25 * S, (R.c3.y + R.c2.z) / S, (R.c3.x - R.c1.z) / S⟩
    else
      let S := Real.sqrt (1.0 + R.c3.z - R.c1.x - R.c2.y) * 2
      ⟨(R.c3.x + R.c1.z) / S, (R.c3.y + R.c2.z) / S, 0.25 * S, (R.c1.y - R.c2.x) / S⟩
  q.divScalar q.normQ

/-- _q_desired_sunpointing: +X to the Sun, frame completed with cross
products. -/
def _q_desired_sunpointing (sun_pos : Vec3) : Quat :=
  let sun_vec := sun_pos.divScalar sun_pos.normV
  let z_body : Vec3 := ⟨0, 0, 1⟩
  let x_body := sun_vec
  let y_body0 := z_body.cross x_body
  let y_body := y_body0.divScalar y_body0.normV
  let z_body2 := x_body.cross y_body
  _rotation_matrix_to_quaternion ⟨x_body, y_body, z_body2⟩

/-- _q_desired_nadir: -Z to the Earth centre, with a fallback axis when
the first cross product degenerates. -/
def _q_desired_nadir (position : Vec3) : Quat :=
  let earth_pos := position.neg
  let earth_vec := earth_pos.divScalar earth_pos.normV
  let z_body := earth_vec.neg
  let temp_vec : Vec3 := ⟨0, 0, 1⟩
  let x_body0 := z_body.cross temp_vec
  let x_body1 := if x_body0.normV < 1e-10 then z_body.cross ⟨0, 1, 0⟩ else x_body0
  let x_body := x_body1.divScalar x_body1.normV
  let y_body0 := z_body.cross x_body
  let y_body := y_body0.divScalar y_body0.normV
  _rotation_matrix_to_quaternion ⟨x_body, y_body, z_body⟩

/-- _q_desired_download: +Z to the Earth centre (opposite sign convention
from nadir). -/
def _q_desired_download (position : Vec3) : Quat :=
  let earth_pos := position.neg
  let earth_vec := earth_pos.divScalar earth_pos.normV
  let z_body := earth_vec
  let temp_vec : Vec3 := ⟨0, 0, 1⟩
  let x_body0 := z_body.cross temp_vec
  let x_body1 := if x_body0.normV < 1e-10 then z_body.cross ⟨0, 1, 0⟩ else x_body0
  let x_body := x_body1.divScalar x_body1.normV
  let y_body0 := z_body.cross x_body
  let y_body := y_body0.divScalar y_body0.normV
  _rotation_matrix_to_quaternion ⟨x_body, y_body, z_body⟩

/-- The q_desired selection inside the POINTING-ACHIEVED / LOCK branch of
_update_attitude.  q_desired is None when the branch is entered, so the
first arm always fires and returns the current attitude; the
lock_quaternion arm and the two duplicated control-mode-3 arms below it
are unreachable, mirroring the if/elif chain of the source. -/
def lock_branch_q_desired (m : ADCSModule) (control_mode : ℕ)
    (q_desired : Option Quat) (orbit_pos sun_pos : Vec3) : Quat :=
  match q_desired with
  | none => m.quaternion
  | some qd =>
    if control_mode = 1 then
      match m.lock_quaternion with
      | some q => q
      | none => m.quaternion
    else if control_mode = 3 then _q_desired_sunpointing sun_pos
    else if control_mode = 3 then _q_desired_nadir orbit_pos
    else if control_mode = 4 then _q_desired_nadir orbit_pos
    else qd

/-- The np.random.uniform draws of one _update_attitude tick, passed
explicitly: r1–r3 are the three per-axis draws of whichever branch runs,
h1–h3 the small angular-velocity jitter applied on POINTING ACHIEVED. -/
structure Noise where
  r1 : ℝ
  r2 : ℝ
  r3 : ℝ
  h1 : ℝ
  h2 : ℝ
  h3 : ℝ

/-- _keep_pointing: hold the desired attitude with per-axis jitter in
[-0.1, 0.1] degrees; returns the new quaternion and angular velocity. -/
def _keep_pointing (m : ADCSModule) (r1 r2 r3 : ℝ) (q_desired : Quat) :
    Quat × Vec3 :=
  let rpy_desired := _quaternion_to_euler q_desired
  let rpy_current := _quaternion_to_euler m.quaternion
  let c0 := rpy_desired.1 + r1
  let c1 := rpy_desired.2.1 + r2
  let c2 := rpy_desired.2.2 + r3
  let q_current := _euler_to_quaternion c0 c1 c2
  (q_current, ⟨r1, r2, r3⟩)

/-- _keep_slewing: advance each Euler axis by sign(error) times the noisy
slew rate times the time step; returns the new quaternion, the applied
rates and the per-axis errors.  (The error-angle / time-to-target block of
the source only feeds debug logging and is not modelled.) -/
def _keep_slewing (m : ADCSModule) (r1 r2 r3 : ℝ) (q_desired q_current : Quat) :
    Quat × Vec3 × (ℝ × ℝ × ℝ) :=
  let rpy_desired := _quaternion_to_euler q_desired
  let rpy_current := _quaternion_to_euler q_current
  let x_error := rpy_desired.1 - rpy_current.1
  let y_error := rpy_desired.2.1 - rpy_current.2.1
  let z_error := rpy_desired.2.2 - rpy_current.2.2
  let applied_slew_rate_x := r1 + m.nominal_slew_rate
  let applied_slew_rate_y := r2 + m.nominal_slew_rate
  let applied_slew_rate_z := r3 + m.nominal_slew_rate
  let n0 := rpy_current.1 + signR x_error * applied_slew_rate_x * m.time_step
  let n1 := rpy_current.2.1 + signR y_error * applied_slew_rate_y * m.time_step
  let n2 := rpy_current.2.2 + signR z_error * applied_slew_rate_z * m.time_step
  let q_new := _euler_to_quaternion n0 n1 n2
  (q_new, ⟨applied_slew_rate_x, applied_slew_rate_y, applied_slew_rate_z⟩,
    (x_error, y_error, z_error))

/-- _uncontrolled_motion: small positive random per-axis rates, no target
tracking. -/
def _uncontrolled_motion (m : ADCSModule) (r1 r2 r3 : ℝ) : ADCSModule :=
  let rpy_current := _quaternion_to_euler m.quaternion
  let n0 := rpy_current.1 + r1 * m.time_step
  let n1 := rpy_current.2.1 + r2 * m.time_step
  let n2 := rpy_current.2.2 + r3 * m.time_step
  { m with angular_velocity := ⟨r1, r2, r3⟩
           quaternion := _euler_to_quaternion n0 n1 n2 }

/-- _update_attitude: mode dispatch of the per-tick attitude update.
orbit_pos is orbit_state['position'] and sun_pos the Sun position at
orbit_state['time']. -/
def _update_attitude (m : ADCSModule) (ns : Noise) (orbit_pos sun_pos : Vec3) :
    ADCSModule :=
  let control_mode := m.mode
  if control_mode = 0 then
    _uncontrolled_motion m ns.r1 ns.r2 ns.r3
  else if m.status = 2 ∨ control_mode = 1 then
    let lockq :=
      match m.lock_quaternion with
      | none => m.quaternion
      | some q => q
    let m' := { m with lock_quaternion := some lockq }
    let q_desired := lock_branch_q_desired m' control_mode none orbit_pos sun_pos
    let r := _keep_pointing m' ns.r1 ns.r2 ns.r3 q_desired
    { m' with quaternion := r.1, angular_velocity := r.2 }
  else if control_mode = 2 then
    let q_desired := _q_desired_sunpointing sun_pos
    let r := _keep_slewing m ns.r1 ns.r2 ns.r3 q_desired m.quaternion
    let m' := { m with quaternion := r.1, angular_velocity := r.2.1 }
    let errors := r.2.2
    if |errors.1| > m'.pointing_accuracy * 2.0 ∨ |errors.2.1| > m'.pointing_accuracy * 2.0 ∨
        |errors.2.2| > m'.pointing_accuracy * 2.0 then
      { m' with status := 1 }
    else
      { m' with status := 2, angular_velocity := ⟨0 + ns.h1, 0 + ns.h2, 0 + ns.h3⟩ }
  else if control_mode = 3 then
    let q_desired := _q_desired_nadir orbit_pos
    let r := _keep_slewing m ns.r1 ns.r2 ns.r3 q_desired m.quaternion
    let m' := { m with quaternion := r.1, angular_velocity := r.2.1 }
    let errors := r.2.2
    if |errors.1| > m'.pointing_accuracy * 2.0 ∨ |errors.2.1| > m'.pointing_accuracy * 2.0 ∨
        |errors.2.2| > m'.pointing_accuracy * 2.0 then
      { m' with status := 1 }
    else
      { m' with status := 2, angular_velocity := ⟨0 + ns.h1, 0 + ns.h2, 0 + ns.h3⟩ }
  else if control_mode = 4 then
    let q_desired := _q_desired_download orbit_pos
    let r := _keep_slewing m ns.r1 ns.r2 ns.r3 q_desired m.quaternion
    let m' := { m with quaternion := r.1, angular_velocity := r.2.1 }
    let errors := r.2.2
    if |errors.1| > m'.pointing_accuracy * 2.0 ∨ |errors.2.1| > m'.pointing_accuracy * 2.0 ∨
        |errors.2.2| > m'.pointing_accuracy * 2.0 then
      { m' with status := 1 }
    else
      { m' with status := 2, angular_velocity := ⟨0 + ns.h1, 0 + ns.h2, 0 + ns.h3⟩ }
  else m

/-! ## C5: unit quaternion invariant -/

theorem quat_div_norm_normQ (q : Quat) (h : q.normSq = 1) :
    (q.divScalar q.normQ).normQ = 1 := by
  have hn : q.normQ = 1 := by
    rw [Quat.normQ, h, Real.sqrt_one]
  have hq : q.divScalar q.normQ = q := by
    rw [hn]
    simp [Quat.divScalar]
  rw [hq, hn]

theorem quat_comp_normSq (a b c : ℝ) :
    (Real.sin a * Real.cos b * Real.cos c - Real.cos a * Real.sin b * Real.sin c)^2 +
    (Real.cos a * Real.sin b * Real.cos c + Real.sin a * Real.cos b * Real.sin c)^2 +
    (Real.cos a * Real.cos b * Real.sin c - Real.sin a * Real.sin b * Real.cos c)^2 +
    (Real.cos a * Real.cos b * Real.cos c + Real.sin a * Real.sin b * Real.sin c)^2 = 1 := by
  have h1 := Real.sin_sq_add_cos_sq a
  have h2 := Real.sin_sq_add_cos_sq b
  have h3 := Real.sin_sq_add_cos_sq c
  have expand :
      (Real.sin a * Real.cos b * Real.cos c - Real.cos a * Real.sin b * Real.sin c)^2 +
      (Real.cos a * Real.sin b * Real.cos c + Real.sin a * Real.cos b * Real.sin c)^2 +
      (Real.cos a * Real.cos b * Real.sin c - Real.sin a * Real.sin b * Real.cos c)^2 +
      (Real.cos a * Real.cos b * Real.cos c + Real.sin a * Real.sin b * Real.sin c)^2 =
      (Real.sin a^2 + Real.cos a^2) * ((Real.sin b^2 + Real.cos b^2) *
        (Real.sin c^2 + Real.cos c^2)) := by
    ring
  rw [expand, h1, h2, h3]
  norm_num

/-- The output of _euler_to_quaternion has unit norm: the four components
already form a unit quaternion, and dividing by their norm keeps it. -/
theorem euler_to_quaternion_norm (r p y : ℝ) :
    (_euler_to_quaternion r p y).normQ = 1 := by
  simp only [_euler_to_quaternion]
  apply quat_div_norm_normQ
  simp only [Quat.normSq]
  exact quat_comp_normSq (radiansOf r * 0.5) (radiansOf p * 0.5) (radiansOf y * 0.5)

/-- C5: after a per-tick _update_attitude in any reachable mode (0–4, the
modes SET_MODE accepts and the configuration provides), for every status
and every value of the injected random noise, the stored quaternion has
Euclidean norm 1 within 1e-6 (it is renormalized on every path). -/
theorem update_attitude_quaternion_norm (m : ADCSModule) (ns : Noise)
    (orbit_pos sun_pos : Vec3) (hm : m.mode ≤ 4) :
    |((_update_attitude m ns orbit_pos sun_pos).quaternion).normQ - 1| < 1 / 1000000 := by
  have key : ((_update_attitude m ns orbit_pos sun_pos).quaternion).normQ = 1 := by
    simp only [_update_attitude, _uncontrolled_motion, _keep_pointing, _keep_slewing]
    split_ifs <;> first
      | (simp only []; simp [euler_to_quaternion_norm])
      | omega
  rw [key]
  norm_num

/-- The initial ADCS attributes of SPACECRAFT_CONFIG. -/
def configADCSState : ADCSModule :=
  { state := 2, temperature := 20, heater_setpoint := 25, heater_state := 0
    power_draw := 5.0, mode := 0, status := 0
    quaternion := ⟨0.707, 0.0, 0.0, 0.707⟩, angular_velocity := ⟨0, 0, 0⟩
    position := ⟨0, 0, 400⟩, eclipse := 0
    lock_quaternion := none, pointing_start_time := none
    pointing_accuracy := 2.0, nominal_slew_rate := 2.0, time_step := 1.0 }

/-- C5 witness: the invariant at the configured initial state with
concrete noise, position and sun vector. -/
theorem update_attitude_quaternion_norm_witness :
    |((_update_attitude configADCSState ⟨0.05, 0.02, 0.07, 0.001, 0.001, 0.001⟩
        ⟨0, 0, 6878⟩ ⟨149597870700, 0, 0⟩).quaternion).normQ - 1| < 1 / 1000000 :=
  update_attitude_quaternion_norm configADCSState _ _ _
    (by norm_num [configADCSState])

/-! ## C4: SET_QUATERNION stores the decoded floats verbatim -/

/-- The Scenario D payload: 16 bytes, the big-endian float32 encodings of
(0.0, 0.0, 0.0, 1.0). -/
def scenarioDPayload : List ℕ :=
  [0, 0, 0, 0, 0, 0, 0, 0, 0, 0, 0, 0, 0x3F, 0x80, 0, 0]

/-- C4: ADCS command 34 with a 16-byte payload overwrites the quaternion
with exactly the four decoded big-endian float32 values — no
renormalization, no other field touched; in particular the Scenario D
payload yields exactly [0, 0, 0, 1]. -/
theorem set_quaternion_exact (m : ADCSModule) (b : List ℕ)
    (q0 q1 q2 q3 : ℝ) (h : unpackQuat b = some (q0, q1, q2, q3)) :
    m.process_command 34 b = { m with quaternion := ⟨q0, q1, q2, q3⟩ } ∧
    ∀ m' : ADCSModule, m'.process_command 34 scenarioDPayload =
      { m' with quaternion := ⟨0, 0, 0, 1⟩ } := by
  constructor
  · simp [ADCSModule.process_command, h]
  · intro m'
    have hd : unpackQuat scenarioDPayload = some (0, 0, 0, 1) := by
      simp only [unpackQuat, scenarioDPayload]
      norm_num [decodeF32]
    simp [ADCSModule.process_command, hd]

/-- C4 witness: Scenario D applied to the configured initial state. -/
theorem set_quaternion_exact_witness :
    configADCSState.process_command 34 scenarioDPayload =
      { configADCSState with quaternion := ⟨0, 0, 0, 1⟩ } :=
  (set_quaternion_exact configADCSState scenarioDPayload 0 0 0 1
    (by simp only [unpackQuat, scenarioDPayload]; norm_num [decodeF32])).2
    configADCSState

/-! ## C8: SET_MODE validation and effect -/

/-- C8 (amended): ADCS command 33 with a one-byte payload rejects modes
above 4 leaving the state unchanged; a validated mode 0–4 is stored,
status is forced to SLEWING (1), and pointing_start_time is reset to
None — the cached lock-target quaternion is NOT cleared. -/
theorem set_mode_validated (m : ADCSModule) (b : List ℕ) (mo : ℕ)
    (h : unpackU8 b = some mo) :
    (mo > 4 → m.process_command 33 b = m) ∧
    (mo ≤ 4 → m.process_command 33 b =
      { m with mode := mo, status := 1, pointing_start_time := none }) := by
  constructor
  · intro hgt
    simp [ADCSModule.process_command, h, if_pos hgt]
  · intro hle
    have : ¬ (mo > 4) := by omega
    simp [ADCSModule.process_command, h, if_neg this]

/-- An ADCS state holding a cached lock-target quaternion. -/
def lockCachedState : ADCSModule :=
  { configADCSState with
      mode := 1
      status := 2
      quaternion := ⟨0, 0, 0, 1⟩
      lock_quaternion := some ⟨1, 0, 0, 0⟩ }

/-- C8 counterexample: a validated SET_MODE (mode 2) on a state with a
cached lock-target quaternion sets mode and status but leaves the cached
lock-target quaternion in place, contradicting the claimed
invalidation. -/
theorem set_mode_keeps_lock_cache :
    (lockCachedState.process_command 33 [2]).mode = 2 ∧
    (lockCachedState.process_command 33 [2]).status = 1 ∧
    (lockCachedState.process_command 33 [2]).lock_quaternion = some ⟨1, 0, 0, 0⟩ := by
  have h : lockCachedState.process_command 33 [2] =
      { lockCachedState with mode := 2, status := 1, pointing_start_time := none } := by
    have hu : unpackU8 [2] = some 2 := by simp [unpackU8]
    simp [ADCSModule.process_command, hu]
  rw [h]
  refine ⟨rfl, rfl, ?_⟩
  simp [lockCachedState]

/-- C8 witness: both arms of the theorem at concrete payloads — mode 7 is
rejected without a state change, mode 2 is applied. -/
theorem set_mode_validated_witness :
    configADCSState.process_command 33 [7] = configADCSState ∧
    configADCSState.process_command 33 [2] =
      { configADCSState with mode := 2, status := 1, pointing_start_time := none } :=
  ⟨(set_mode_validated configADCSState [7] 7 (by simp [unpackU8])).1 (by omega),
   (set_mode_validated configADCSState [2] 2 (by simp [unpackU8])).2 (by omega)⟩

/-! ## C9: the LOCK-mode desired quaternion -/

/-- C9: on a LOCK-mode tick the q_desired actually used is always the
current attitude quaternion — the arm that would read the cached
lock-target is unreachable because q_desired is still None when the
chain is evaluated.  At a state whose cached lock-target differs from the
current attitude, the two disagree. -/
theorem lock_mode_uses_current_attitude :
    (∀ (m : ADCSModule) (cm : ℕ) (op sp : Vec3),
      lock_branch_q_desired m cm none op sp = m.quaternion) ∧
    lock_branch_q_desired lockCachedState 1 none ⟨0, 0, 6878⟩ ⟨149597870700, 0, 0⟩ =
      ⟨0, 0, 0, 1⟩ ∧
    lockCachedState.lock_quaternion = some ⟨1, 0, 0, 0⟩ ∧
    (⟨0, 0, 0, 1⟩ : Quat) ≠ (⟨1, 0, 0, 0⟩ : Quat) := by
  refine ⟨fun m cm op sp => rfl, rfl, by simp [lockCachedState], ?_⟩
  intro h
  have := congrArg Quat.w h
  norm_num at this

/-! ## Subsystem command handlers — obc.py, power.py, comms.py,
payload.py, datastore.py -/

/-- OBCModule state (obc.py). -/
structure OBCModule where
  state : ℕ
  temperature : ℝ
  heater_setpoint : ℝ
  heater_state : ℕ
  power_draw : ℝ
  mode : ℕ

/-- OBCModule.process_command (IDs 10–19): SET_STATE, SET_HEATER,
SET_HEATER_SETPOINT, SET_MODE, RESET. -/
def OBCModule.process_command (m : OBCModule) (command_id : ℕ)
    (command_data : List ℕ) : OBCModule :=
  match command_id with
  | 10 =>
    match unpackU8 command_data with
    | some s => { m with state := s }
    | none => m
  | 11 =>
    match unpackU8 command_data with
    | some h => { m with heater_state := h }
    | none => m
  | 12 =>
    match unpackF32 command_data with
    | some sp => { m with heater_setpoint := sp }
    | none => m
  | 13 =>
    match unpackU8 command_data with
    | some mo => { m with mode := mo }
    | none => m
  | 14 =>
    { m with
        state := 0
        mode := 0
        heater_state := 0
        heater_setpoint := 0.0 }
  | _ => m

/-- PowerModule state (power.py), restricted to the fields its command
handler touches. -/
structure PowerModule where
  state : ℕ
  temperature : ℝ
  heater_setpoint : ℝ
  heater_state : ℕ
  power_draw : ℝ

/-- PowerModule.process_command (IDs 20–29): SET_STATE, SET_HEATER,
SET_HEATER_SETPOINT. -/
def PowerModule.process_command (m : PowerModule) (command_id : ℕ)
    (command_data : List ℕ) : PowerModule :=
  match command_id with
  | 20 =>
    match unpackU8 command_data with
    | some s => { m with state := s }
    | none => m
  | 21 =>
    match unpackU8 command_data with
    | some h => { m with heater_state := h }
    | none => m
  | 22 =>
    match unpackF32 command_data with
    | some sp => { m with heater_setpoint := sp }
    | none => m
  | _ => m

/-- CommsModule state (apps/spacecraft/comms.py), the fields its command
handler touches. -/
structure CommsModule where
  state : ℕ
  temperature : ℝ
  heater_setpoint : ℝ
  heater_state : ℕ
  power_draw : ℝ
  mode : ℕ
  downlink_bitrate : ℕ

/-- CommsModule.process_command (IDs 40–49): SET_STATE, SET_HEATER,
SET_HEATER_SETPOINT, SET_MODE, SET_BITRATE. -/
def CommsModule.process_command (m : CommsModule) (command_id : ℕ)
    (command_data : List ℕ) : CommsModule :=
  match command_id with
  | 40 =>
    match unpackU8 command_data with
    | some s => { m with state := s }
    | none => m
  | 41 =>
    match unpackU8 command_data with
    | some h => { m with heater_state := h }
    | none => m
  | 42 =>
    match unpackF32 command_data with
    | some sp => { m with heater_setpoint := sp }
    | none => m
  | 43 =>
    match unpackU8 command_data with
    | some mo => { m with mode := mo }
    | none => m
  | 44 =>
    match unpackU32 command_data with
    | some br => { m with downlink_bitrate := br }
    | none => m
  | _ => m

/-- PayloadModule state (payload.py).  captured_images records the effect
of the external imaging API (_capture_image), which is an out-of-scope
collaborator. -/
structure PayloadModule where
  state : ℕ
  temperature : ℝ
  heater_setpoint : ℝ
  heater_state : ℕ
  power_draw : ℝ
  payload_status : ℕ
  captured_images : List ℕ

/-- PayloadModule.process_command (IDs 50–59): SET_STATE, SET_HEATER,
SET_HEATER_SETPOINT, IMAGE_CAPTURE.  The image capture itself calls an
external imaging API; its effect is modelled as recording the requested
MET seconds, taken only when the payload is powered ON (state 2). -/
def PayloadModule.process_command (m : PayloadModule) (command_id : ℕ)
    (command_data : List ℕ) : PayloadModule :=
  match command_id with
  | 50 =>
    match unpackU8 command_data with
    | some s => { m with state := s }
    | none => m
  | 51 =>
    match unpackU8 command_data with
    | some h => { m with heater_state := h }
    | none => m
  | 52 =>
    match unpackF32 command_data with
    | some sp => { m with heater_setpoint := sp }
    | none => m
  | 53 =>
    match unpackU32 command_data with
    | some met_sec =>
      if m.state = 2 then { m with captured_images := m.captured_images ++ [met_sec] }
      else m
    | none => m
  | _ => m

/-- Strip leading and trailing zero bytes: str.strip of null characters
after utf-8 decoding, on the byte-list model of strings. -/
def stripNulls (l : List ℕ) : List ℕ :=
  ((l.dropWhile (fun b => b = 0)).reverse.dropWhile (fun b => b = 0)).reverse

/-- DatastoreModule state (datastore.py).  disk_files and downloads model
the storage directory and the download directory of the out-of-scope
file-system collaborator; files mirrors the self.files attribute. -/
structure DatastoreModule where
  state : ℕ
  temperature : ℝ
  heater_setpoint : ℝ
  heater_state : ℕ
  power_draw : ℝ
  mode : ℕ
  transfer_progress : ℝ
  files : List (List ℕ)
  disk_files : List (List ℕ)
  downloads : List (List ℕ)

/-- DatastoreModule.process_command (IDs 60–69): SET_STATE, SET_HEATER,
SET_HEATER_SETPOINT, CLEAR_DATASTORE, TRANSFER_FILE.  The file-system
effects (os.remove, os.listdir, shutil.copy) are modelled on the
disk_files / downloads lists; clearing removes every stored file from
disk without reassigning self.files, transfer of an existing file copies
it to the download directory and ends with mode IDLE and zero progress. -/
def DatastoreModule.process_command (m : DatastoreModule) (command_id : ℕ)
    (command_data : List ℕ) : DatastoreModule :=
  match command_id with
  | 60 =>
    match unpackU8 command_data with
    | some s => { m with state := s }
    | none => m
  | 61 =>
    match unpackU8 command_data with
    | some h => { m with heater_state := h }
    | none => m
  | 62 =>
    match unpackF32 command_data with
    | some sp => { m with heater_setpoint := sp }
    | none => m
  | 63 =>
    { m with disk_files := [] }
  | 64 =>
    let filename := stripNulls command_data
    let m' := { m with files := m.disk_files }
    if filename ∈ m'.files then
      { m' with
          mode := 0
          downloads := m'.downloads ++ [filename]
          transfer_progress := 0 }
    else m'
  | _ => m

/-! ## CDH command routing (C3) -/

/-- The full spacecraft command-handling state: one record per subsystem
handler reachable from CDH routing. -/
structure Spacecraft where
  obc : OBCModule
  power : PowerModule
  adcs : ADCSModule
  comms : CommsModule
  payload : PayloadModule
  datastore : DatastoreModule

/-- Modelled from the spec: CDHModule.process_command's routing logic is
missing from the source snapshot — cdh.py holds only a logging TODO stub
while comms._tc_listener already hands it (command_id, command_data).
Per spec section 4.4 the router dispatches by contiguous decade of the
16-bit command ID — 10–19 OBC, 20–29 POWER, 30–39 ADCS, 40–49 COMMS,
50–59 PAYLOAD, 60–69 DATASTORE — and an ID outside every range is logged
and dropped with no state change and no acknowledgment. -/
def cdh_process_command (s : Spacecraft) (command_id : ℕ)
    (command_data : List ℕ) : Spacecraft :=
  if 10 ≤ command_id ∧ command_id ≤ 19 then
    { s with obc := s.obc.process_command command_id command_data }
  else if 20 ≤ command_id ∧ command_id ≤ 29 then
    { s with power := s.power.process_command command_id command_data }
  else if 30 ≤ command_id ∧ command_id ≤ 39 then
    { s with adcs := s.adcs.process_command command_id command_data }
  else if 40 ≤ command_id ∧ command_id ≤ 49 then
    { s with comms := s.comms.process_command command_id command_data }
  else if 50 ≤ command_id ∧ command_id ≤ 59 then
    { s with payload := s.payload.process_command command_id command_data }
  else if 60 ≤ command_id ∧ command_id ≤ 69 then
    { s with datastore := s.datastore.process_command command_id command_data }
  else s

/-- comms._tc_listener, per received datagram: skip the 6-byte CCSDS
header and 4-byte timestamp, read the 16-bit command ID at offset 10,
hand the rest to CDH.  The second component is the list of datagrams sent
back on the TC socket — the listener never transmits, so it is empty. -/
def tc_listener (s : Spacecraft) (datagram : List ℕ) :
    Spacecraft × List (List ℕ) :=
  let command_id := word16At datagram 10
  let command_data := datagram.drop 12
  (cdh_process_command s command_id command_data, [])

/-- C3: every inbound command ID is routed by contiguous decade to the
matching subsystem handler; an ID outside all six ranges (85 among them)
is dropped: every subsystem's state is left unchanged and no
acknowledgment datagram is ever produced. -/
theorem cdh_routing_by_decade :
    (∀ (s : Spacecraft) (id : ℕ) (d : List ℕ), 10 ≤ id → id ≤ 19 →
      cdh_process_command s id d = { s with obc := s.obc.process_command id d }) ∧
    (∀ (s : Spacecraft) (id : ℕ) (d : List ℕ), 20 ≤ id → id ≤ 29 →
      cdh_process_command s id d = { s with power := s.power.process_command id d }) ∧
    (∀ (s : Spacecraft) (id : ℕ) (d : List ℕ), 30 ≤ id → id ≤ 39 →
      cdh_process_command s id d = { s with adcs := s.adcs.process_command id d }) ∧
    (∀ (s : Spacecraft) (id : ℕ) (d : List ℕ), 40 ≤ id → id ≤ 49 →
      cdh_process_command s id d = { s with comms := s.comms.process_command id d }) ∧
    (∀ (s : Spacecraft) (id : ℕ) (d : List ℕ), 50 ≤ id → id ≤ 59 →
      cdh_process_command s id d = { s with payload := s.payload.process_command id d }) ∧
    (∀ (s : Spacecraft) (id : ℕ) (d : List ℕ), 60 ≤ id → id ≤ 69 →
      cdh_process_command s id d = { s with datastore := s.datastore.process_command id d }) ∧
    (∀ (s : Spacecraft) (id : ℕ) (d : List ℕ), id < 10 ∨ 69 < id →
      cdh_process_command s id d = s) ∧
    (∀ (s : Spacecraft) (d : List ℕ), cdh_process_command s 85 d = s) ∧
    (∀ (s : Spacecraft) (dg : List ℕ), (tc_listener s dg).2 = []) := by
  refine ⟨?_, ?_, ?_, ?_, ?_, ?_, ?_, ?_, ?_⟩
  · intro s id d h1 h2
    unfold cdh_process_command
    rw [if_pos ⟨h1, h2⟩]
  · intro s id d h1 h2
    unfold cdh_process_command
    rw [if_neg (by omega), if_pos ⟨h1, h2⟩]
  · intro s id d h1 h2
    unfold cdh_process_command
    rw [if_neg (by omega), if_neg (by omega), if_pos ⟨h1, h2⟩]
  · intro s id d h1 h2
    unfold cdh_process_command
    rw [if_neg (by omega), if_neg (by omega), if_neg (by omega), if_pos ⟨h1, h2⟩]
  · intro s id d h1 h2
    unfold cdh_process_command
    rw [if_neg (by omega), if_neg (by omega), if_neg (by omega), if_neg (by omega),
      if_pos ⟨h1, h2⟩]
  · intro s id d h1 h2
    unfold cdh_process_command
    rw [if_neg (by omega), if_neg (by omega), if_neg (by omega), if_neg (by omega),
      if_neg (by omega), if_pos ⟨h1, h2⟩]
  · intro s id d h
    unfold cdh_process_command
    rw [if_neg (by omega), if_neg (by omega), if_neg (by omega), if_neg (by omega),
      if_neg (by omega), if_neg (by omega)]
  · intro s d
    unfold cdh_process_command
    rw [if_neg (by omega), if_neg (by omega), if_neg (by omega), if_neg (by omega),
      if_neg (by omega), if_neg (by omega)]
  · intro s dg
    rfl

/-- The spacecraft assembled from the initial states of config.py. -/
def initialSpacecraft : Spacecraft :=
  { obc :=
      { state := 2, temperature := 20, heater_setpoint := 25, heater_state := 0
        power_draw := 2.5, mode := 1 }
    power :=
      { state := 2, temperature := 20, heater_setpoint := 25, heater_state := 0
        power_draw := 1.0 }
    adcs := configADCSState
    comms :=
      { state := 2, temperature := 20, heater_setpoint := 25, heater_state := 0
        power_draw := 3.0, mode := 0, downlink_bitrate := 9600 }
    payload :=
      { state := 0, temperature := 20, heater_setpoint := 25, heater_state := 0
        power_draw := 2.0, payload_status := 0, captured_images := [] }
    datastore :=
      { state := 2, temperature := 20, heater_setpoint := 25, heater_state := 0
        power_draw := 1.5, mode := 0, transfer_progress := 0
        files := [], disk_files := [], downloads := [] } }

/-- C3 witness: command ID 85 is dropped with no state change on the
configured spacecraft, ID 33 routes to ADCS, ID 14 routes to OBC, and the
listener acknowledges nothing. -/
theorem cdh_routing_by_decade_witness :
    cdh_process_command initialSpacecraft 85 [] = initialSpacecraft ∧
    cdh_process_command initialSpacecraft 33 [2] =
      { initialSpacecraft with
          adcs := initialSpacecraft.adcs.process_command 33 [2] } ∧
    cdh_process_command initialSpacecraft 14 [] =
      { initialSpacecraft with
          obc := initialSpacecraft.obc.process_command 14 [] } ∧
    (tc_listener initialSpacecraft []).2 = [] :=
  ⟨cdh_routing_by_decade.2.2.2.2.2.2.2.1 initialSpacecraft [],
   cdh_routing_by_decade.2.2.1 initialSpacecraft 33 [2] (by omega) (by omega),
   cdh_routing_by_decade.1 initialSpacecraft 14 [] (by omega) (by omega),
   cdh_routing_by_decade.2.2.2.2.2.2.2.2 initialSpacecraft []⟩
